import Mathlib

/-!
Shallow embedding of the allocation core of `src/frontend/src/App.js`:
the first-fit-decreasing allocator `optimizarRutasBasico` (lines 568-596)
and the metrics computation `calcularMetricas` (lines 599-614).

JavaScript numbers are modelled as rationals (`ℚ`); the special values
NaN and ±Infinity that JavaScript division by zero produces are tracked
explicitly with the `JSNum` type, so that every division in the source is
translated faithfully rather than collapsed to Lean's `x / 0 = 0`.
-/

/-- Result of a JavaScript floating-point expression: either a finite
number (modelled as a rational) or one of the special values. -/
inductive JSNum where
  | nan : JSNum
  | posInf : JSNum
  | negInf : JSNum
  | fin : ℚ → JSNum
deriving DecidableEq, Repr

/-- JavaScript `Math.round`: round half toward positive infinity,
`Math.round(x) = ⌊x + 0.5⌋` for finite `x`. -/
def jsRound (x : ℚ) : Int := Int.floor (x + 1/2)

/-- JavaScript `(u / c) * 100`, the expression used both for a bin's
`eficiencia` (App.js line 588) and inside `eficiencia_llenado`
(line 605).  When `c = 0` JavaScript yields NaN (for `u = 0`) or
±Infinity (for `u ≠ 0`); otherwise the exact rational. -/
def jsDivMul100 (u c : ℚ) : JSNum :=
  if c = 0 then
    (if u = 0 then JSNum.nan else if 0 < u then JSNum.posInf else JSNum.negInf)
  else
    JSNum.fin (u / c * 100)

/-- JavaScript `Math.round` lifted to `JSNum`: NaN and ±Infinity are
fixed points of `Math.round`. -/
def jsRoundNum : JSNum → JSNum
  | JSNum.nan => JSNum.nan
  | JSNum.posInf => JSNum.posInf
  | JSNum.negInf => JSNum.negInf
  | JSNum.fin x => JSNum.fin (jsRound x)

/-- A demand item (`tienda` row): the fields of the source's store
records that the allocator reads or stores. -/
structure Tienda where
  id : Nat
  nombre : String
  combis_promedio : ℚ
deriving DecidableEq, Repr

/-- A capacity unit (`vehiculo` row): the fields the allocator reads. -/
structure Vehiculo where
  id : Nat
  nombre_corto : String
  capacidad_combis : ℚ
deriving DecidableEq, Repr

/-- A bin (`ruta` object literal of App.js lines 573-580). -/
structure Ruta where
  vehiculo_id : Nat
  vehiculo_nombre : String
  capacidad_maxima : ℚ
  capacidad_usada : ℚ
  tiendas : List Tienda
  eficiencia : JSNum
deriving DecidableEq, Repr

/-- The fresh bin built for one vehicle (App.js lines 573-580). -/
def rutaInicial (v : Vehiculo) : Ruta :=
  { vehiculo_id := v.id
    vehiculo_nombre := v.nombre_corto
    capacidad_maxima := v.capacidad_combis
    capacidad_usada := 0
    tiendas := []
    eficiencia := JSNum.fin 0 }

/-- The sort of App.js line 570:
`[...tiendas].sort((a, b) => b.combis_promedio - a.combis_promedio)`.
`Array.prototype.sort` is a stable sort, and with this comparator `a`
precedes `b` exactly when `b.combis_promedio ≤ a.combis_promedio`; the
result is therefore the stable descending sort by `combis_promedio`,
modelled here by a stable insertion sort with that order. -/
def ordenarTiendas (ts : List Tienda) : List Tienda :=
  List.insertionSort (fun a b => b.combis_promedio ≤ a.combis_promedio) ts

/-- One pass of the inner `for (let ruta of rutas)` loop of App.js
lines 584-591: scan the bins in order and mutate the first bin whose
used load plus the item's demand stays within its capacity, pushing the
item, adding its demand to `capacidad_usada` and recomputing
`eficiencia`; `break` afterwards, so later bins are untouched. -/
def colocarTienda (t : Tienda) : List Ruta → List Ruta
  | [] => []
  | r :: rs =>
    if r.capacidad_usada + t.combis_promedio ≤ r.capacidad_maxima then
      { r with
        tiendas := r.tiendas ++ [t]
        capacidad_usada := r.capacidad_usada + t.combis_promedio
        eficiencia :=
          jsDivMul100 (r.capacidad_usada + t.combis_promedio) r.capacidad_maxima } :: rs
    else
      r :: colocarTienda t rs

/-- The allocator `optimizarRutasBasico` (App.js lines 568-596): sort
the stores by demand descending, initialize one bin per vehicle in
input order, place each store by first fit, and return the non-empty
bins in order. -/
def optimizarRutasBasico (tiendas : List Tienda) (vehiculos : List Vehiculo) : List Ruta :=
  ((ordenarTiendas tiendas).foldl (fun rs t => colocarTienda t rs)
      (vehiculos.map rutaInicial)).filter
    (fun r => decide (0 < r.tiendas.length))

/-- JavaScript evaluation of
`Math.max(0, rutas.length - Math.ceil(capacidadUsada / (totalCapacidad / rutas.length)))`
(App.js line 612), with every division-by-zero special value propagated:
`n = 0` forces `totalCapacidad = 0` at the call site but is modelled for
arbitrary arguments (`tc / 0` is NaN or ±Infinity, and `cu / ±Infinity`
collapses to `0`). -/
def ahorroPotencial (n : Nat) (tc cu : ℚ) : JSNum :=
  if n = 0 then
    (if tc = 0 then JSNum.nan else JSNum.fin 0)
  else
    let avg := tc / (n : ℚ)
    if avg = 0 then
      (if cu = 0 then JSNum.nan
       else if 0 < cu then JSNum.fin 0
       else JSNum.posInf)
    else
      JSNum.fin (max 0 ((n : Int) - Int.ceil (cu / avg)))

/-- The metrics record returned by `calcularMetricas`
(App.js lines 604-613). -/
structure Metricas where
  eficiencia_llenado : JSNum
  vehiculos_necesarios : Nat
  vehiculos_disponibles : Nat
  tiendas_asignadas : Nat
  tiendas_totales : Nat
  capacidad_total : ℚ
  capacidad_usada : ℚ
  ahorro_potencial : JSNum
deriving DecidableEq, Repr

/-- The scorer `calcularMetricas` (App.js lines 599-614).  The three
`reduce` accumulations are left folds from `0`;
`eficiencia_llenado = Math.round((capacidadUsada / totalCapacidad) * 100)`
is NaN when both sums are zero (in particular on an empty bin list);
`capacidad_usada` is rounded to one decimal via
`Math.round(x * 10) / 10`. -/
def calcularMetricas (rutas : List Ruta) (totalTiendas : Nat) : Metricas :=
  let totalCapacidad := rutas.foldl (fun s r => s + r.capacidad_maxima) 0
  let capacidadUsada := rutas.foldl (fun s r => s + r.capacidad_usada) 0
  let tiendasAsignadas := rutas.foldl (fun s r => s + r.tiendas.length) 0
  { eficiencia_llenado := jsRoundNum (jsDivMul100 capacidadUsada totalCapacidad)
    vehiculos_necesarios := rutas.length
    vehiculos_disponibles := rutas.length
    tiendas_asignadas := tiendasAsignadas
    tiendas_totales := totalTiendas
    capacidad_total := totalCapacidad
    capacidad_usada := (jsRound (capacidadUsada * 10) : ℚ) / 10
    ahorro_potencial := ahorroPotencial rutas.length totalCapacidad capacidadUsada }

/-!
Specification-side definitions.  Section 4.1 of the specification
describes the allocator in its own words; the definitions below follow
that wording so they can be compared with the embedding above.
-/

/-- Spec ordering on index-tagged demand items: "sort demand items by
demand value descending; ties broken by original input order". -/
def claveAntes (p q : Nat × Tienda) : Prop :=
  q.2.combis_promedio < p.2.combis_promedio ∨
    (p.2.combis_promedio = q.2.combis_promedio ∧ p.1 ≤ q.1)

instance : DecidableRel claveAntes := fun _ _ =>
  inferInstanceAs (Decidable (_ ∨ _ ∧ _))

/-- Spec-side sort: tag every demand item with its original input
position, sort by the key (demand descending, position ascending), and
drop the tags. -/
def ordenarSpec (ts : List Tienda) : List Tienda :=
  (List.insertionSort claveAntes ts.enum).map Prod.snd

/-- Spec-side fit test: "the first bin whose (used load + item demand)
does not exceed its capacity". -/
def cabeEn (t : Tienda) (r : Ruta) : Bool :=
  decide (r.capacidad_usada + t.combis_promedio ≤ r.capacidad_maxima)

/-- Spec-side scan: the position of the first bin, in canonical order,
in which the item fits; `none` when no bin fits. -/
def primeraQueCabe (t : Tienda) : List Ruta → Option Nat
  | [] => none
  | r :: rs => if cabeEn t r then some 0 else (primeraQueCabe t rs).map (· + 1)

/-- Spec-side assignment of one item to one bin: push the item, add its
demand to the used load, refresh the derived fill percentage. -/
def agregaTienda (t : Tienda) (r : Ruta) : Ruta :=
  { r with
    tiendas := r.tiendas ++ [t]
    capacidad_usada := r.capacidad_usada + t.combis_promedio
    eficiencia :=
      jsDivMul100 (r.capacidad_usada + t.combis_promedio) r.capacidad_maxima }

/-- Replace the bin at one position of the bin list, leaving every other
bin untouched. -/
def modificaEn (f : Ruta → Ruta) : Nat → List Ruta → List Ruta
  | _, [] => []
  | 0, r :: rs => f r :: rs
  | n + 1, r :: rs => r :: modificaEn f n rs

/-- Spec-side step 3 for a single item: assign it to the first fitting
bin, or leave the bins unchanged ("the item is left unassigned") when no
bin fits. -/
def asignarSpec (rs : List Ruta) (t : Tienda) : List Ruta :=
  match primeraQueCabe t rs with
  | none => rs
  | some i => modificaEn (agregaTienda t) i rs

/-- The allocator as section 4.1 of the specification words it: one bin
per capacity unit in input order, each item of the descending stable
sort placed first-fit, and only bins with at least one assigned item
returned, in canonical order. -/
def allocateSpec (ts : List Tienda) (vs : List Vehiculo) : List Ruta :=
  ((ordenarSpec ts).foldl asignarSpec (vs.map rutaInicial)).filter
    (fun r => !r.tiendas.isEmpty)

/-!
Concrete sample data, used by the closed example theorems and by the
witnesses that instantiate the universally quantified theorems.
-/

/-- Demand 8 item of the two-bin example. -/
def tEj1 : Tienda := ⟨1, "T1", 8⟩

/-- First demand 5 item of the two-bin example. -/
def tEj2 : Tienda := ⟨2, "T2", 5⟩

/-- Second demand 5 item of the two-bin example. -/
def tEj3 : Tienda := ⟨3, "T3", 5⟩

/-- Demand 2 item of the two-bin example. -/
def tEj4 : Tienda := ⟨4, "T4", 2⟩

/-- Capacity 10 vehicle A of the two-bin example. -/
def vEjA : Vehiculo := ⟨1, "A", 10⟩

/-- Capacity 10 vehicle B of the two-bin example. -/
def vEjB : Vehiculo := ⟨2, "B", 10⟩

/-- A store with demand 1. -/
def tUno : Tienda := ⟨1, "T1", 1⟩

/-- A vehicle with capacity 3. -/
def vTres : Vehiculo := ⟨1, "V1", 3⟩

/-- A store with demand 0. -/
def tCero : Tienda := ⟨7, "T0", 0⟩

/-- A vehicle with capacity 0. -/
def vCero : Vehiculo := ⟨7, "V0", 0⟩

/-- A bin of capacity 2 holding one item of demand 1. -/
def rutaMedia : Ruta :=
  { vehiculo_id := 1
    vehiculo_nombre := "V1"
    capacidad_maxima := 2
    capacidad_usada := 1
    tiendas := [tUno]
    eficiencia := JSNum.fin 50 }

/-- The bin produced for `vTres` once `tUno` is placed in it. -/
def rutaUno : Ruta := ⟨1, "V1", 3, 1, [tUno], JSNum.fin (100/3)⟩

/-- The bin produced for `vCero` once `tCero` is placed in it. -/
def rutaCero : Ruta := ⟨7, "V0", 0, 0, [tCero], JSNum.nan⟩

/-- Expected bin A of the two-bin example: demands 8 and 2, used 10. -/
def rutaEjA : Ruta := ⟨1, "A", 10, 10, [tEj1, tEj4], JSNum.fin 100⟩

/-- Expected bin B of the two-bin example: the two demand 5 items. -/
def rutaEjB : Ruta := ⟨2, "B", 10, 10, [tEj2, tEj3], JSNum.fin 100⟩

/-!
Invariants maintained by the placement loop.
-/

/-- The record invariant of a working bin: its used load is the sum of
the demands of its assigned items, stays non-negative, never exceeds the
capacity, and once at least one item is assigned the `eficiencia` field
holds the fill percentage derived from the current used load. -/
def RutaInv (r : Ruta) : Prop :=
  r.capacidad_usada = (r.tiendas.map Tienda.combis_promedio).sum ∧
  0 ≤ r.capacidad_usada ∧
  r.capacidad_usada ≤ r.capacidad_maxima ∧
  (r.tiendas ≠ [] →
    r.eficiencia = jsDivMul100 r.capacidad_usada r.capacidad_maxima)

theorem rutaInv_colocar (t : Tienda) (ht : 0 ≤ t.combis_promedio) :
    ∀ rs : List Ruta, (∀ r ∈ rs, RutaInv r) →
      ∀ r ∈ colocarTienda t rs, RutaInv r := by
  intro rs
  induction rs with
  | nil => intro _ r hr; simp [colocarTienda] at hr
  | cons a as ih =>
    intro h r hr
    by_cases hfit : a.capacidad_usada + t.combis_promedio ≤ a.capacidad_maxima
    · rw [colocarTienda, if_pos hfit] at hr
      rcases List.mem_cons.mp hr with rfl | hmem
      · obtain ⟨hsum, hnn, -, -⟩ := h a (List.mem_cons_self a as)
        refine ⟨?_, add_nonneg hnn ht, hfit, fun _ => rfl⟩
        simp [hsum, List.sum_append]
      · exact h r (List.mem_cons_of_mem a hmem)
    · rw [colocarTienda, if_neg hfit] at hr
      rcases List.mem_cons.mp hr with rfl | hmem
      · exact h r (List.mem_cons_self r as)
      · exact ih (fun r' hr' => h r' (List.mem_cons_of_mem a hr')) r hmem

theorem rutaInv_foldl (ts : List Tienda) :
    ∀ rs : List Ruta, (∀ t ∈ ts, 0 ≤ t.combis_promedio) →
      (∀ r ∈ rs, RutaInv r) →
      ∀ r ∈ ts.foldl (fun a t => colocarTienda t a) rs, RutaInv r := by
  induction ts with
  | nil => intro rs _ h r hr; exact h r hr
  | cons t ts ih =>
    intro rs hts h r hr
    rw [List.foldl_cons] at hr
    exact ih (colocarTienda t rs)
      (fun t' ht' => hts t' (List.mem_cons_of_mem t ht'))
      (rutaInv_colocar t (hts t (List.mem_cons_self t ts)) rs h) r hr

theorem rutaInv_inicial (v : Vehiculo) (hv : 0 ≤ v.capacidad_combis) :
    RutaInv (rutaInicial v) := by
  refine ⟨rfl, le_refl 0, hv, fun hne => absurd rfl hne⟩

theorem mem_ordenarTiendas {t : Tienda} {ts : List Tienda} :
    t ∈ ordenarTiendas ts ↔ t ∈ ts :=
  (List.perm_insertionSort _ ts).mem_iff

/-- Every bin of the allocator's output satisfies the record invariant
and is non-empty. -/
theorem rutaInv_optimizar (ts : List Tienda) (vs : List Vehiculo)
    (hts : ∀ t ∈ ts, 0 ≤ t.combis_promedio)
    (hvs : ∀ v ∈ vs, 0 ≤ v.capacidad_combis) :
    ∀ r ∈ optimizarRutasBasico ts vs, RutaInv r ∧ r.tiendas ≠ [] := by
  intro r hr
  rw [optimizarRutasBasico] at hr
  have hmem := List.mem_of_mem_filter hr
  have hne : r.tiendas ≠ [] := by
    have := List.of_mem_filter hr
    simp only [decide_eq_true_eq] at this
    exact List.ne_nil_of_length_pos this
  refine ⟨?_, hne⟩
  refine rutaInv_foldl (ordenarTiendas ts) (vs.map rutaInicial) ?_ ?_ r hmem
  · intro t' ht'
    exact hts t' (mem_ordenarTiendas.mp ht')
  · intro r' hr'
    obtain ⟨v, hv, rfl⟩ := List.mem_map.mp hr'
    exact rutaInv_inicial v (hvs v hv)

/-!
Equivalence of the source allocator with the specification's wording.
-/

theorem fst_ge_of_mem_enumFrom :
    ∀ (l : List Tienda) (n : Nat) (p : Nat × Tienda), p ∈ l.enumFrom n → n ≤ p.1 := by
  intro l
  induction l with
  | nil => intro n p hp; simp [List.enumFrom] at hp
  | cons t ts ih =>
    intro n p hp
    rcases List.mem_cons.mp hp with rfl | hmem
    · exact le_refl n
    · exact le_of_lt (Nat.lt_of_succ_le (ih (n + 1) p hmem))

theorem strip_orderedInsert (i : Nat) (a : Tienda) :
    ∀ l : List (Nat × Tienda), (∀ p ∈ l, i < p.1) →
      (List.orderedInsert claveAntes (i, a) l).map Prod.snd =
        List.orderedInsert (fun x y => y.combis_promedio ≤ x.combis_promedio) a
          (l.map Prod.snd) := by
  intro l
  induction l with
  | nil => intro _; rfl
  | cons p l' ih =>
    intro h
    obtain ⟨j, b⟩ := p
    have hij : i < j := h (j, b) (List.mem_cons_self _ _)
    have hiff : claveAntes (i, a) (j, b) ↔
        b.combis_promedio ≤ a.combis_promedio := by
      unfold claveAntes
      constructor
      · rintro (hlt | ⟨heq, -⟩)
        · exact le_of_lt hlt
        · exact le_of_eq heq.symm
      · intro hle
        rcases lt_or_eq_of_le hle with hlt | heq
        · exact Or.inl hlt
        · exact Or.inr ⟨heq.symm, le_of_lt hij⟩
    by_cases hc : b.combis_promedio ≤ a.combis_promedio
    · rw [List.orderedInsert, List.map_cons, List.orderedInsert,
        if_pos (hiff.mpr hc), if_pos hc]
      rfl
    · rw [List.orderedInsert, List.map_cons, List.orderedInsert,
        if_neg (fun hca => hc (hiff.mp hca)), if_neg hc, List.map_cons,
        ih (fun q hq => h q (List.mem_cons_of_mem _ hq))]

theorem strip_insertionSort :
    ∀ (ts : List Tienda) (n : Nat),
      (List.insertionSort claveAntes (ts.enumFrom n)).map Prod.snd =
        List.insertionSort (fun x y => y.combis_promedio ≤ x.combis_promedio) ts := by
  intro ts
  induction ts with
  | nil => intro n; rfl
  | cons t ts ih =>
    intro n
    have henum : (t :: ts).enumFrom n = (n, t) :: ts.enumFrom (n + 1) := rfl
    rw [henum, List.insertionSort, List.insertionSort]
    rw [strip_orderedInsert n t _ ?_, ih (n + 1)]
    intro p hp
    have hmem : p ∈ ts.enumFrom (n + 1) :=
      (List.perm_insertionSort claveAntes (ts.enumFrom (n + 1))).mem_iff.mp hp
    exact Nat.lt_of_succ_le (fst_ge_of_mem_enumFrom ts (n + 1) p hmem)

/-- The specification's sort (descending demand, ties broken by input
position) computes the same list as the source's stable-comparator
sort. -/
theorem ordenarSpec_eq_ordenarTiendas (ts : List Tienda) :
    ordenarSpec ts = ordenarTiendas ts :=
  strip_insertionSort ts 0

theorem colocar_eq_asignar (t : Tienda) :
    ∀ rs : List Ruta, colocarTienda t rs = asignarSpec rs t := by
  intro rs
  induction rs with
  | nil => rfl
  | cons a as ih =>
    by_cases hfit : a.capacidad_usada + t.combis_promedio ≤ a.capacidad_maxima
    · have hc : cabeEn t a = true := decide_eq_true hfit
      rw [colocarTienda, if_pos hfit]
      rw [asignarSpec]
      rw [primeraQueCabe, if_pos hc]
      rfl
    · have hc : cabeEn t a = false := decide_eq_false hfit
      rw [colocarTienda, if_neg hfit, ih]
      rw [asignarSpec, asignarSpec]
      rw [primeraQueCabe, if_neg (by simp [hc])]
      cases primeraQueCabe t as with
      | none => rfl
      | some i => rfl

theorem foldl_colocar_eq_asignar (ts : List Tienda) :
    ∀ rs : List Ruta,
      ts.foldl (fun a t => colocarTienda t a) rs = ts.foldl asignarSpec rs := by
  induction ts with
  | nil => intro rs; rfl
  | cons t ts ih =>
    intro rs
    rw [List.foldl_cons, List.foldl_cons, colocar_eq_asignar t rs, ih]

theorem filter_longitud_eq_isEmpty (rs : List Ruta) :
    rs.filter (fun r => decide (0 < r.tiendas.length)) =
      rs.filter (fun r => !r.tiendas.isEmpty) := by
  induction rs with
  | nil => rfl
  | cons a as ih =>
    cases h : a.tiendas with
    | nil => simp [List.filter_cons, h, ih]
    | cons x xs => simp [List.filter_cons, h, ih]

/-!
Accounting lemmas: which items end up in bins, and the fold sums used
by the scorer.
-/

theorem colocar_flatMap_le (t : Tienda) :
    ∀ rs : List Ruta,
      ((colocarTienda t rs).flatMap Ruta.tiendas : Multiset Tienda) ≤
        (rs.flatMap Ruta.tiendas : Multiset Tienda) + {t} := by
  intro rs
  induction rs with
  | nil =>
    simp only [colocarTienda]
    exact Multiset.zero_le _
  | cons a as ih =>
    by_cases hfit : a.capacidad_usada + t.combis_promedio ≤ a.capacidad_maxima
    · rw [colocarTienda, if_pos hfit]
      refine le_of_eq ?_
      simp only [List.flatMap_cons, ← Multiset.coe_add, ← Multiset.coe_singleton]
      rw [add_right_comm]
    · rw [colocarTienda, if_neg hfit]
      simp only [List.flatMap_cons, ← Multiset.coe_add]
      rw [add_assoc]
      exact add_le_add_left ih _

theorem foldl_colocar_flatMap_le :
    ∀ (ts : List Tienda) (rs : List Ruta),
      (((ts.foldl (fun a t => colocarTienda t a) rs).flatMap Ruta.tiendas :
          List Tienda) : Multiset Tienda) ≤
        (rs.flatMap Ruta.tiendas : Multiset Tienda) + (ts : Multiset Tienda) := by
  intro ts
  induction ts with
  | nil => intro rs; simp
  | cons t ts ih =>
    intro rs
    rw [List.foldl_cons]
    refine (ih (colocarTienda t rs)).trans ?_
    refine (add_le_add_right (colocar_flatMap_le t rs) _).trans (le_of_eq ?_)
    rw [add_assoc, Multiset.singleton_add, ← Multiset.cons_coe]

theorem filter_flatMap_le (p : Ruta → Bool) :
    ∀ rs : List Ruta,
      ((rs.filter p).flatMap Ruta.tiendas : Multiset Tienda) ≤
        (rs.flatMap Ruta.tiendas : Multiset Tienda) := by
  intro rs
  induction rs with
  | nil => exact le_refl _
  | cons a as ih =>
    rw [List.filter_cons]
    by_cases hp : p a = true
    · rw [if_pos hp]
      simp only [List.flatMap_cons, ← Multiset.coe_add]
      exact add_le_add_left ih _
    · rw [if_neg hp]
      simp only [List.flatMap_cons, ← Multiset.coe_add]
      exact ih.trans (Multiset.le_add_left _ _)

theorem map_rutaInicial_flatMap (vs : List Vehiculo) :
    (vs.map rutaInicial).flatMap Ruta.tiendas = [] := by
  induction vs with
  | nil => rfl
  | cons v vs ih => simp [rutaInicial, ih]

theorem coe_ordenarTiendas (ts : List Tienda) :
    ((ordenarTiendas ts : List Tienda) : Multiset Tienda) = (ts : Multiset Tienda) :=
  Multiset.coe_eq_coe.mpr (List.perm_insertionSort _ ts)

/-- The multiset of items assigned across all output bins is contained
in the multiset of input items. -/
theorem optimizar_flatMap_le (ts : List Tienda) (vs : List Vehiculo) :
    (((optimizarRutasBasico ts vs).flatMap Ruta.tiendas : List Tienda) :
        Multiset Tienda) ≤ (ts : Multiset Tienda) := by
  rw [optimizarRutasBasico]
  refine (filter_flatMap_le _ _).trans ?_
  refine (foldl_colocar_flatMap_le _ _).trans (le_of_eq ?_)
  rw [map_rutaInicial_flatMap, coe_ordenarTiendas]
  simp

theorem foldl_add_map_rat (f : Ruta → ℚ) :
    ∀ (rs : List Ruta) (x : ℚ),
      rs.foldl (fun s r => s + f r) x = x + (rs.map f).sum := by
  intro rs
  induction rs with
  | nil => intro x; simp
  | cons a as ih =>
    intro x
    rw [List.foldl_cons, ih, List.map_cons, List.sum_cons, add_assoc]

/-!
Evaluation lemmas for JavaScript rounding on concrete values.
-/

theorem jsRound_intCast (z : ℤ) : jsRound (z : ℚ) = z := by
  rw [jsRound]
  apply Int.floor_eq_iff.mpr
  constructor <;> linarith

theorem jsRound_cien : jsRound 100 = 100 := by
  rw [show (100 : ℚ) = ((100 : ℤ) : ℚ) by norm_num]
  rw [jsRound_intCast]

/-!
The claims.
-/

/-- C1: for every pair of input lists with non-negative demands and
non-negative capacities, every bin of the allocator's output has used
load at most its capacity. -/
theorem allocate_capacity_invariant (ts : List Tienda) (vs : List Vehiculo)
    (hts : ∀ t ∈ ts, 0 ≤ t.combis_promedio)
    (hvs : ∀ v ∈ vs, 0 ≤ v.capacidad_combis) :
    ∀ r ∈ optimizarRutasBasico ts vs,
      r.capacidad_usada ≤ r.capacidad_maxima :=
  fun r hr => ((rutaInv_optimizar ts vs hts hvs r hr).1).2.2.1

/-- Witness for C1: on demands `[1]` and capacities `[3]` the returned
bin has used load `1 ≤ 3`. -/
theorem allocate_capacity_invariant_witness :
    rutaUno ∈ optimizarRutasBasico [tUno] [vTres] ∧
      rutaUno.capacidad_usada ≤ rutaUno.capacidad_maxima :=
  have hmem : rutaUno ∈ optimizarRutasBasico [tUno] [vTres] := by
    norm_num [optimizarRutasBasico, ordenarTiendas, List.insertionSort,
      List.orderedInsert, colocarTienda, rutaInicial, jsDivMul100, tUno, vTres,
      rutaUno]
  ⟨hmem,
    allocate_capacity_invariant [tUno] [vTres] (by simp [tUno]) (by simp [vTres])
      rutaUno hmem⟩

/-- C2: the allocator computes exactly the first-fit-decreasing
procedure worded in the specification: stable sort by demand descending
(ties in input order), first-fit placement over bins in capacity-unit
input order with unassignable items dropped, and only non-empty bins
returned, in canonical order. -/
theorem allocate_eq_ffd_spec (ts : List Tienda) (vs : List Vehiculo) :
    optimizarRutasBasico ts vs = allocateSpec ts vs := by
  rw [optimizarRutasBasico, allocateSpec, ordenarSpec_eq_ordenarTiendas,
    foldl_colocar_eq_asignar, filter_longitud_eq_isEmpty]

/-- Counterexample to C3 as stated: on an empty bin list the computed
fill rate is NaN — `Math.round((0 / 0) * 100)` — not the claimed `0`. -/
theorem fill_rate_empty_bins_counterexample :
    (calcularMetricas [] 5).eficiencia_llenado = JSNum.nan ∧
      JSNum.nan ≠ JSNum.fin 0 := by
  constructor
  · rfl
  · simp

/-- C3 (amended): whenever the bins' total capacity is non-zero the
fill rate is `Math.round(100 × Σ used / Σ capacity)`; on an empty bin
list the total capacity is `0` and the fill rate is NaN (no
division-by-zero fault is raised, but the value is NaN rather than 0). -/
theorem fill_rate_formula_amended (rutas : List Ruta) (n : Nat) :
    ((rutas.map Ruta.capacidad_maxima).sum ≠ 0 →
      (calcularMetricas rutas n).eficiencia_llenado =
        JSNum.fin (jsRound
          (100 * (rutas.map Ruta.capacidad_usada).sum /
            (rutas.map Ruta.capacidad_maxima).sum))) ∧
    (rutas = [] →
      (calcularMetricas rutas n).eficiencia_llenado = JSNum.nan) := by
  constructor
  · intro htc
    show jsRoundNum
        (jsDivMul100 (rutas.foldl (fun s r => s + r.capacidad_usada) 0)
          (rutas.foldl (fun s r => s + r.capacidad_maxima) 0)) = _
    rw [foldl_add_map_rat (fun r => r.capacidad_usada),
      foldl_add_map_rat (fun r => r.capacidad_maxima), zero_add, zero_add,
      jsDivMul100, if_neg htc, jsRoundNum]
    have harg :
        (rutas.map Ruta.capacidad_usada).sum /
            (rutas.map Ruta.capacidad_maxima).sum * 100 =
          100 * (rutas.map Ruta.capacidad_usada).sum /
            (rutas.map Ruta.capacidad_maxima).sum := by
      ring
    rw [harg]
  · rintro rfl
    rfl

/-- Witness for C3 (amended): one bin of capacity 2 and used load 1
yields fill rate `Math.round(100 × 1 / 2)`. -/
theorem fill_rate_formula_amended_witness :
    (([rutaMedia].map Ruta.capacidad_maxima).sum ≠ 0) ∧
      (calcularMetricas [rutaMedia] 1).eficiencia_llenado =
        JSNum.fin (jsRound
          (100 * ([rutaMedia].map Ruta.capacidad_usada).sum /
            ([rutaMedia].map Ruta.capacidad_maxima).sum)) :=
  have h : (([rutaMedia].map Ruta.capacidad_maxima).sum : ℚ) ≠ 0 := by
    norm_num [rutaMedia]
  ⟨h, (fill_rate_formula_amended [rutaMedia] 1).1 h⟩

/-- Counterexample to C4 as stated: on demands `[1]`, capacities `[3]`
the returned bin's efficiency is exactly `100/3 = 33.333…`, while the
claimed round-to-one-decimal value is `Math.round((100 × 1 / 3) × 10) / 10
= 33.3`; the two differ, so the code does not round the per-bin
efficiency. -/
theorem bin_efficiency_rounding_counterexample :
    (optimizarRutasBasico [tUno] [vTres]).map Ruta.eficiencia =
        [JSNum.fin (100 / 3)] ∧
      jsRound ((100 * (1 : ℚ) / 3) * 10) = 333 ∧
      (100 : ℚ) / 3 ≠ (333 : ℚ) / 10 := by
  refine ⟨?_, ?_, by norm_num⟩
  · norm_num [optimizarRutasBasico, ordenarTiendas, List.insertionSort,
      List.orderedInsert, colocarTienda, rutaInicial, jsDivMul100, tUno, vTres]
  · rw [jsRound, show (100 * (1 : ℚ) / 3) * 10 + 1/2 = 2003/6 by ring]
    apply Int.floor_eq_iff.mpr
    constructor <;> norm_num

/-- C4 (amended): for non-negative inputs, every returned bin's
efficiency field is exactly `100 × used / capacity` (not rounded to one
decimal), and for a bin of capacity 0 it is NaN (JavaScript `0/0`),
not 0. -/
theorem bin_efficiency_amended (ts : List Tienda) (vs : List Vehiculo)
    (hts : ∀ t ∈ ts, 0 ≤ t.combis_promedio)
    (hvs : ∀ v ∈ vs, 0 ≤ v.capacidad_combis) :
    ∀ r ∈ optimizarRutasBasico ts vs,
      (r.capacidad_maxima ≠ 0 →
        r.eficiencia =
          JSNum.fin (100 * r.capacidad_usada / r.capacidad_maxima)) ∧
      (r.capacidad_maxima = 0 → r.eficiencia = JSNum.nan) := by
  intro r hr
  obtain ⟨⟨hsum, hnn, hle, heff⟩, hne⟩ := rutaInv_optimizar ts vs hts hvs r hr
  have he := heff hne
  constructor
  · intro hc
    rw [he, jsDivMul100, if_neg hc]
    have harg : r.capacidad_usada / r.capacidad_maxima * 100 =
        100 * r.capacidad_usada / r.capacidad_maxima := by
      ring
    rw [harg]
  · intro hc
    have hu : r.capacidad_usada = 0 := le_antisymm (hc ▸ hle) hnn
    rw [he, hu, hc, jsDivMul100, if_pos rfl, if_pos rfl]

/-- Witness for C4 (amended): the zero-capacity edge case — capacities
`[0]`, demands `[0]` — places the zero-demand item and the bin's
efficiency is NaN. -/
theorem bin_efficiency_amended_witness :
    rutaCero ∈ optimizarRutasBasico [tCero] [vCero] ∧
      rutaCero.eficiencia = JSNum.nan :=
  have hmem : rutaCero ∈ optimizarRutasBasico [tCero] [vCero] := by
    norm_num [optimizarRutasBasico, ordenarTiendas, List.insertionSort,
      List.orderedInsert, colocarTienda, rutaInicial, jsDivMul100, tCero, vCero,
      rutaCero]
  ⟨hmem,
    (bin_efficiency_amended [tCero] [vCero] (by simp [tCero]) (by simp [vCero])
        rutaCero hmem).2 rfl⟩

/-- C5: the two-bin example — demands `[8,5,5,2]`, capacities `[10,10]`
— yields bin A with items of demand 8 and 2 and used load 10, bin B with
the two demand 5 items and used load 10, fill rate 100, two vehicles
used and four items assigned. -/
theorem two_bin_example :
    optimizarRutasBasico [tEj1, tEj2, tEj3, tEj4] [vEjA, vEjB] =
        [rutaEjA, rutaEjB] ∧
      (calcularMetricas (optimizarRutasBasico [tEj1, tEj2, tEj3, tEj4]
          [vEjA, vEjB]) 4).eficiencia_llenado = JSNum.fin 100 ∧
      (calcularMetricas (optimizarRutasBasico [tEj1, tEj2, tEj3, tEj4]
          [vEjA, vEjB]) 4).vehiculos_necesarios = 2 ∧
      (calcularMetricas (optimizarRutasBasico [tEj1, tEj2, tEj3, tEj4]
          [vEjA, vEjB]) 4).tiendas_asignadas = 4 := by
  have halloc :
      optimizarRutasBasico [tEj1, tEj2, tEj3, tEj4] [vEjA, vEjB] =
        [rutaEjA, rutaEjB] := by
    norm_num [optimizarRutasBasico, ordenarTiendas, List.insertionSort,
      List.orderedInsert, colocarTienda, rutaInicial, jsDivMul100, tEj1, tEj2,
      tEj3, tEj4, vEjA, vEjB, rutaEjA, rutaEjB]
  refine ⟨halloc, ?_, ?_, ?_⟩ <;> rw [halloc]
  · norm_num [calcularMetricas, rutaEjA, rutaEjB, jsDivMul100, jsRoundNum,
      jsRound_cien]
  · norm_num [calcularMetricas]
  · norm_num [calcularMetricas, rutaEjA, rutaEjB]

/-- C6: when the input demand items carry distinct identifiers, the
items assigned across the output bins form a sub-multiset of the input
items, and their identifiers are pairwise distinct — so each input item
appears in at most one bin, at most once. -/
theorem no_duplication (ts : List Tienda) (vs : List Vehiculo)
    (hids : (ts.map Tienda.id).Nodup) :
    ((((optimizarRutasBasico ts vs).flatMap Ruta.tiendas : List Tienda) :
        Multiset Tienda) ≤ (ts : Multiset Tienda)) ∧
      (((optimizarRutasBasico ts vs).flatMap Ruta.tiendas).map
        Tienda.id).Nodup := by
  refine ⟨optimizar_flatMap_le ts vs, ?_⟩
  have hle := Multiset.map_le_map (f := Tienda.id) (optimizar_flatMap_le ts vs)
  rw [Multiset.map_coe, Multiset.map_coe] at hle
  exact Multiset.coe_nodup.mp
    (Multiset.nodup_of_le hle (Multiset.coe_nodup.mpr hids))

/-- Witness for C6: two items with identifiers 1 and 2 and one vehicle;
the assigned items stay within the input multiset and no identifier is
repeated. -/
theorem no_duplication_witness :
    ((((optimizarRutasBasico [tEj1, tEj2] [vEjA]).flatMap Ruta.tiendas :
        List Tienda) : Multiset Tienda) ≤ ([tEj1, tEj2] : Multiset Tienda)) ∧
      (((optimizarRutasBasico [tEj1, tEj2] [vEjA]).flatMap Ruta.tiendas).map
        Tienda.id).Nodup :=
  no_duplication [tEj1, tEj2] [vEjA] (by simp [tEj1, tEj2])

/-- C7: the allocator is deterministic — two calls on identical inputs
return identical outputs. -/
theorem allocate_deterministic (ts₁ ts₂ : List Tienda)
    (vs₁ vs₂ : List Vehiculo) (hts : ts₁ = ts₂) (hvs : vs₁ = vs₂) :
    optimizarRutasBasico ts₁ vs₁ = optimizarRutasBasico ts₂ vs₂ := by
  rw [hts, hvs]

/-- Witness for C7 at a concrete input. -/
theorem allocate_deterministic_witness :
    optimizarRutasBasico [tUno] [vTres] = optimizarRutasBasico [tUno] [vTres] :=
  allocate_deterministic [tUno] [tUno] [vTres] [vTres] rfl rfl

theorem foldl_colocar_nil (l : List Tienda) :
    l.foldl (fun rs t => colocarTienda t rs) ([] : List Ruta) = [] := by
  induction l with
  | nil => rfl
  | cons t l ih => rw [List.foldl_cons]; exact ih

/-- C8: with a non-empty demand list and no capacity units the allocator
returns the empty bin list — infeasibility is visible only in the
output, and the total function raises nothing. -/
theorem empty_capacities_empty_output (ts : List Tienda) (_hts : ts ≠ []) :
    optimizarRutasBasico ts [] = [] := by
  rw [optimizarRutasBasico, List.map_nil, foldl_colocar_nil, List.filter_nil]

/-- Witness for C8: demands `[5]`-like input `[tUno]`, no vehicles. -/
theorem empty_capacities_empty_output_witness :
    ([tUno] ≠ ([] : List Tienda)) ∧ optimizarRutasBasico [tUno] [] = [] :=
  ⟨by simp, empty_capacities_empty_output [tUno] (by simp)⟩

/-- C10: every output bin's used load equals the sum of the demands of
the items assigned to it. -/
theorem used_load_eq_sum_of_items (ts : List Tienda) (vs : List Vehiculo)
    (hts : ∀ t ∈ ts, 0 ≤ t.combis_promedio)
    (hvs : ∀ v ∈ vs, 0 ≤ v.capacidad_combis) :
    ∀ r ∈ optimizarRutasBasico ts vs,
      r.capacidad_usada = (r.tiendas.map Tienda.combis_promedio).sum :=
  fun r hr => ((rutaInv_optimizar ts vs hts hvs r hr).1).1

/-- Witness for C10: the bin produced for demands `[1]`, capacities
`[3]` has used load `1`, the sum of its single item's demand. -/
theorem used_load_eq_sum_of_items_witness :
    rutaUno ∈ optimizarRutasBasico [tUno] [vTres] ∧
      rutaUno.capacidad_usada =
        (rutaUno.tiendas.map Tienda.combis_promedio).sum :=
  have hmem : rutaUno ∈ optimizarRutasBasico [tUno] [vTres] := by
    norm_num [optimizarRutasBasico, ordenarTiendas, List.insertionSort,
      List.orderedInsert, colocarTienda, rutaInicial, jsDivMul100, tUno, vTres,
      rutaUno]
  ⟨hmem,
    used_load_eq_sum_of_items [tUno] [vTres] (by simp [tUno]) (by simp [vTres])
      rutaUno hmem⟩
